import Mathlib

/-!
Verification of the fixed-layout event records declared in
`s2n-quic-core/src/event/generated_s2n_quic_bpf_events.h`.

The header declares four C structs whose fields are all `uint64_t`:
`RecoveryMetrics` (nine fields), `RxStreamProgress` and `TxStreamProgress`
(one field `bytes` each), and `EndpointDatagramReceived` (one field `len`).
We embed each struct as a Lean structure whose fields are `Fin (2 ^ 64)`,
the values of an unsigned 64-bit integer, and model its in-memory byte
layout as the little-endian concatenation of its fields, eight bytes each,
in declaration order, with no padding (natural alignment of `uint64_t`
members introduces none).
-/

/-- The number of values of a `uint64_t`: `2 ^ 64`. -/
def u64Bound : Nat := 2 ^ 64

instance : NeZero u64Bound := ⟨by decide⟩

/-- Embedding of `struct RecoveryMetrics`: nine `uint64_t` fields in
declaration order. -/
structure RecoveryMetrics where
  path : Fin u64Bound
  min_rtt : Fin u64Bound
  smoothed_rtt : Fin u64Bound
  latest_rtt : Fin u64Bound
  rtt_variance : Fin u64Bound
  max_ack_delay : Fin u64Bound
  pto_count : Fin u64Bound
  congestion_window : Fin u64Bound
  bytes_in_flight : Fin u64Bound
deriving DecidableEq

/-- Embedding of `struct RxStreamProgress`: a single `uint64_t bytes`. -/
structure RxStreamProgress where
  bytes : Fin u64Bound
deriving DecidableEq

/-- Embedding of `struct TxStreamProgress`: a single `uint64_t bytes`. -/
structure TxStreamProgress where
  bytes : Fin u64Bound
deriving DecidableEq

/-- Embedding of `struct EndpointDatagramReceived`: a single `uint64_t len`. -/
structure EndpointDatagramReceived where
  len : Fin u64Bound
deriving DecidableEq

/-- The eight bytes of a `uint64_t` value, least significant first, as they
lie in memory on a little-endian machine. -/
def u64ToBytesLE (v : Nat) : List Nat :=
  [v % 256, v / 256 % 256, v / 65536 % 256, v / 16777216 % 256,
   v / 4294967296 % 256, v / 1099511627776 % 256,
   v / 281474976710656 % 256, v / 72057594037927936 % 256]

/-- Read back a `uint64_t` from its little-endian bytes. -/
def bytesToU64LE (bs : List Nat) : Nat :=
  bs.foldr (fun b acc => b + 256 * acc) 0

/-- The fields of a `RecoveryMetrics` record in declaration order. -/
def RecoveryMetrics.fieldList (r : RecoveryMetrics) : List (Fin u64Bound) :=
  [r.path, r.min_rtt, r.smoothed_rtt, r.latest_rtt, r.rtt_variance,
   r.max_ack_delay, r.pto_count, r.congestion_window, r.bytes_in_flight]

/-- Read field number `i` (counting from 0) of a `RecoveryMetrics` record. -/
def RecoveryMetrics.readField (r : RecoveryMetrics) (i : Fin 9) : Fin u64Bound :=
  r.fieldList.get ⟨i.val, i.isLt⟩

/-- Perform a sequence of field reads on a `RecoveryMetrics` record. -/
def RecoveryMetrics.readAll (r : RecoveryMetrics) (reads : List (Fin 9)) :
    List (Fin u64Bound) :=
  reads.map r.readField

/-- The in-memory bytes of a `struct RecoveryMetrics`: the nine fields in
declaration order, eight little-endian bytes each, no padding. -/
def RecoveryMetrics.serialize (r : RecoveryMetrics) : List Nat :=
  u64ToBytesLE r.path.val ++ u64ToBytesLE r.min_rtt.val ++
  u64ToBytesLE r.smoothed_rtt.val ++ u64ToBytesLE r.latest_rtt.val ++
  u64ToBytesLE r.rtt_variance.val ++ u64ToBytesLE r.max_ack_delay.val ++
  u64ToBytesLE r.pto_count.val ++ u64ToBytesLE r.congestion_window.val ++
  u64ToBytesLE r.bytes_in_flight.val

/-- The in-memory bytes of a `struct RxStreamProgress`. -/
def RxStreamProgress.serialize (r : RxStreamProgress) : List Nat :=
  u64ToBytesLE r.bytes.val

/-- The in-memory bytes of a `struct TxStreamProgress`. -/
def TxStreamProgress.serialize (r : TxStreamProgress) : List Nat :=
  u64ToBytesLE r.bytes.val

/-- The in-memory bytes of a `struct EndpointDatagramReceived`. -/
def EndpointDatagramReceived.serialize (r : EndpointDatagramReceived) : List Nat :=
  u64ToBytesLE r.len.val

/-- Construct a `RecoveryMetrics` record from a nine-tuple of field values,
in declaration order. -/
def constructRecovery
    (t : Fin u64Bound × Fin u64Bound × Fin u64Bound × Fin u64Bound ×
      Fin u64Bound × Fin u64Bound × Fin u64Bound × Fin u64Bound × Fin u64Bound) :
    RecoveryMetrics :=
  ⟨t.1, t.2.1, t.2.2.1, t.2.2.2.1, t.2.2.2.2.1, t.2.2.2.2.2.1,
   t.2.2.2.2.2.2.1, t.2.2.2.2.2.2.2.1, t.2.2.2.2.2.2.2.2⟩

/-- Writing a `uint64_t` to memory and reading it back is the identity. -/
theorem u64_roundtrip (v : Nat) (h : v < u64Bound) :
    bytesToU64LE (u64ToBytesLE v) = v := by
  simp only [u64ToBytesLE, bytesToU64LE, List.foldr]
  simp only [u64Bound] at h
  omega

/-- C1: `RecoveryMetrics` consists of exactly nine fields, in declaration
order `path, min_rtt, smoothed_rtt, latest_rtt, rtt_variance,
max_ack_delay, pto_count, congestion_window, bytes_in_flight`, and no
others — its field list is exactly those nine projections in that order,
has length nine, every record is rebuilt from those nine fields alone, and
every field value fits in an unsigned 64-bit integer. -/
theorem recoveryMetrics_exactly_nine_u64_fields :
    (∀ r : RecoveryMetrics,
        r.fieldList = [r.path, r.min_rtt, r.smoothed_rtt, r.latest_rtt,
          r.rtt_variance, r.max_ack_delay, r.pto_count, r.congestion_window,
          r.bytes_in_flight])
    ∧ (∀ r : RecoveryMetrics, r.fieldList.length = 9)
    ∧ (∀ r : RecoveryMetrics,
        r = RecoveryMetrics.mk r.path r.min_rtt r.smoothed_rtt r.latest_rtt
          r.rtt_variance r.max_ack_delay r.pto_count r.congestion_window
          r.bytes_in_flight)
    ∧ (∀ r : RecoveryMetrics, ∀ i : Fin 9, (r.readField i).val < 2 ^ 64) :=
  ⟨fun _ => rfl, fun _ => rfl, fun _ => rfl, fun r i => (r.readField i).isLt⟩

/-- C2: for every record kind, constructing a record from a tuple of
unsigned 64-bit values and reading every field back yields exactly the
values supplied, and in particular the concrete `RecoveryMetrics` example
with `path = 1, min_rtt = 2000, smoothed_rtt = 2100, latest_rtt = 2050,
rtt_variance = 50, max_ack_delay = 25000, pto_count = 0,
congestion_window = 65536, bytes_in_flight = 1200` reads back exactly
those nine values in that order. -/
theorem record_roundtrip :
    (∀ a b c d e f g h i : Fin u64Bound,
        (RecoveryMetrics.mk a b c d e f g h i).path = a
        ∧ (RecoveryMetrics.mk a b c d e f g h i).min_rtt = b
        ∧ (RecoveryMetrics.mk a b c d e f g h i).smoothed_rtt = c
        ∧ (RecoveryMetrics.mk a b c d e f g h i).latest_rtt = d
        ∧ (RecoveryMetrics.mk a b c d e f g h i).rtt_variance = e
        ∧ (RecoveryMetrics.mk a b c d e f g h i).max_ack_delay = f
        ∧ (RecoveryMetrics.mk a b c d e f g h i).pto_count = g
        ∧ (RecoveryMetrics.mk a b c d e f g h i).congestion_window = h
        ∧ (RecoveryMetrics.mk a b c d e f g h i).bytes_in_flight = i)
    ∧ (∀ v : Fin u64Bound, (RxStreamProgress.mk v).bytes = v)
    ∧ (∀ v : Fin u64Bound, (TxStreamProgress.mk v).bytes = v)
    ∧ (∀ v : Fin u64Bound, (EndpointDatagramReceived.mk v).len = v)
    ∧ (RecoveryMetrics.mk 1 2000 2100 2050 50 25000 0 65536 1200).fieldList
        = [1, 2000, 2100, 2050, 50, 25000, 0, 65536, 1200] :=
  ⟨fun _ _ _ _ _ _ _ _ _ =>
      ⟨rfl, rfl, rfl, rfl, rfl, rfl, rfl, rfl, rfl⟩,
   fun _ => rfl, fun _ => rfl, fun _ => rfl, rfl⟩

/-- C3: the serialized byte layout of every record kind is exactly its
fields in declaration order, eight bytes each with no padding: field
number `i` (from 1) lies at byte offset `8 * (i - 1)`, and the whole
record occupies eight times its field count in bytes — 72 bytes for
`RecoveryMetrics` and 8 bytes for each of the other three kinds. -/
theorem serialized_layout :
    (∀ r : RecoveryMetrics,
        r.serialize.length = 72
        ∧ bytesToU64LE (r.serialize.take 8) = r.path.val
        ∧ bytesToU64LE ((r.serialize.drop 8).take 8) = r.min_rtt.val
        ∧ bytesToU64LE ((r.serialize.drop 16).take 8) = r.smoothed_rtt.val
        ∧ bytesToU64LE ((r.serialize.drop 24).take 8) = r.latest_rtt.val
        ∧ bytesToU64LE ((r.serialize.drop 32).take 8) = r.rtt_variance.val
        ∧ bytesToU64LE ((r.serialize.drop 40).take 8) = r.max_ack_delay.val
        ∧ bytesToU64LE ((r.serialize.drop 48).take 8) = r.pto_count.val
        ∧ bytesToU64LE ((r.serialize.drop 56).take 8) = r.congestion_window.val
        ∧ bytesToU64LE ((r.serialize.drop 64).take 8) = r.bytes_in_flight.val)
    ∧ (∀ r : RxStreamProgress,
        r.serialize.length = 8
        ∧ bytesToU64LE (r.serialize.take 8) = r.bytes.val)
    ∧ (∀ r : TxStreamProgress,
        r.serialize.length = 8
        ∧ bytesToU64LE (r.serialize.take 8) = r.bytes.val)
    ∧ (∀ r : EndpointDatagramReceived,
        r.serialize.length = 8
        ∧ bytesToU64LE (r.serialize.take 8) = r.len.val) :=
  ⟨fun r => ⟨rfl,
      u64_roundtrip _ r.path.isLt, u64_roundtrip _ r.min_rtt.isLt,
      u64_roundtrip _ r.smoothed_rtt.isLt, u64_roundtrip _ r.latest_rtt.isLt,
      u64_roundtrip _ r.rtt_variance.isLt, u64_roundtrip _ r.max_ack_delay.isLt,
      u64_roundtrip _ r.pto_count.isLt, u64_roundtrip _ r.congestion_window.isLt,
      u64_roundtrip _ r.bytes_in_flight.isLt⟩,
   fun r => ⟨rfl, u64_roundtrip _ r.bytes.isLt⟩,
   fun r => ⟨rfl, u64_roundtrip _ r.bytes.isLt⟩,
   fun r => ⟨rfl, u64_roundtrip _ r.len.isLt⟩⟩

/-- C4: every field of every record kind accepts the full range of unsigned
64-bit values without truncation — for every `v < 2 ^ 64`, a record
constructed with that field set to `v` reads back exactly `v`. -/
theorem full_u64_range (v : Nat) (hv : v < u64Bound) :
    (RecoveryMetrics.mk ⟨v, hv⟩ 0 0 0 0 0 0 0 0).path.val = v
    ∧ (RecoveryMetrics.mk 0 ⟨v, hv⟩ 0 0 0 0 0 0 0).min_rtt.val = v
    ∧ (RecoveryMetrics.mk 0 0 ⟨v, hv⟩ 0 0 0 0 0 0).smoothed_rtt.val = v
    ∧ (RecoveryMetrics.mk 0 0 0 ⟨v, hv⟩ 0 0 0 0 0).latest_rtt.val = v
    ∧ (RecoveryMetrics.mk 0 0 0 0 ⟨v, hv⟩ 0 0 0 0).rtt_variance.val = v
    ∧ (RecoveryMetrics.mk 0 0 0 0 0 ⟨v, hv⟩ 0 0 0).max_ack_delay.val = v
    ∧ (RecoveryMetrics.mk 0 0 0 0 0 0 ⟨v, hv⟩ 0 0).pto_count.val = v
    ∧ (RecoveryMetrics.mk 0 0 0 0 0 0 0 ⟨v, hv⟩ 0).congestion_window.val = v
    ∧ (RecoveryMetrics.mk 0 0 0 0 0 0 0 0 ⟨v, hv⟩).bytes_in_flight.val = v
    ∧ (RxStreamProgress.mk ⟨v, hv⟩).bytes.val = v
    ∧ (TxStreamProgress.mk ⟨v, hv⟩).bytes.val = v
    ∧ (EndpointDatagramReceived.mk ⟨v, hv⟩).len.val = v :=
  ⟨rfl, rfl, rfl, rfl, rfl, rfl, rfl, rfl, rfl, rfl, rfl, rfl⟩

/-- Witness for C4 at the two extremes `0` and `2 ^ 64 - 1`. -/
theorem full_u64_range_witness :
    (0 < u64Bound
      ∧ (RecoveryMetrics.mk ⟨0, by decide⟩ 0 0 0 0 0 0 0 0).path.val = 0)
    ∧ (2 ^ 64 - 1 < u64Bound
      ∧ (RecoveryMetrics.mk ⟨2 ^ 64 - 1, by decide⟩
          0 0 0 0 0 0 0 0).path.val = 2 ^ 64 - 1) :=
  ⟨⟨by decide, (full_u64_range 0 (by decide)).1⟩,
   ⟨by decide, (full_u64_range (2 ^ 64 - 1) (by decide)).1⟩⟩

/-- C5: `RxStreamProgress` and `TxStreamProgress` each consist of exactly
one unsigned 64-bit field named `bytes` and no others — each record is
rebuilt from `bytes` alone, reading `bytes` back after construction yields
the supplied value, its value fits in 64 bits, and the whole record
serializes to the eight bytes of that one field. -/
theorem streamProgress_single_bytes_field :
    (∀ r : RxStreamProgress, r = RxStreamProgress.mk r.bytes)
    ∧ (∀ v : Fin u64Bound, (RxStreamProgress.mk v).bytes = v)
    ∧ (∀ r : RxStreamProgress, r.bytes.val < 2 ^ 64)
    ∧ (∀ r : RxStreamProgress, r.serialize = u64ToBytesLE r.bytes.val)
    ∧ (∀ r : TxStreamProgress, r = TxStreamProgress.mk r.bytes)
    ∧ (∀ v : Fin u64Bound, (TxStreamProgress.mk v).bytes = v)
    ∧ (∀ r : TxStreamProgress, r.bytes.val < 2 ^ 64)
    ∧ (∀ r : TxStreamProgress, r.serialize = u64ToBytesLE r.bytes.val) :=
  ⟨fun _ => rfl, fun _ => rfl, fun r => r.bytes.isLt, fun _ => rfl,
   fun _ => rfl, fun _ => rfl, fun r => r.bytes.isLt, fun _ => rfl⟩

/-- C6: `EndpointDatagramReceived` consists of exactly one unsigned 64-bit
field named `len` and no others — the record is rebuilt from `len` alone,
reading `len` back after construction yields the supplied value, its value
fits in 64 bits, and the whole record serializes to the eight bytes of
that one field. -/
theorem endpointDatagramReceived_single_len_field :
    (∀ r : EndpointDatagramReceived, r = EndpointDatagramReceived.mk r.len)
    ∧ (∀ v : Fin u64Bound, (EndpointDatagramReceived.mk v).len = v)
    ∧ (∀ r : EndpointDatagramReceived, r.len.val < 2 ^ 64)
    ∧ (∀ r : EndpointDatagramReceived, r.serialize = u64ToBytesLE r.len.val) :=
  ⟨fun _ => rfl, fun _ => rfl, fun r => r.len.isLt, fun _ => rfl⟩

/-- C7: construction has no error path — for every tuple of unsigned
64-bit values there exists a record of each kind carrying exactly those
values; construction is total and never rejects an input. -/
theorem construction_total :
    (∀ a b c d e f g h i : Fin u64Bound, ∃ r : RecoveryMetrics,
        r.fieldList = [a, b, c, d, e, f, g, h, i])
    ∧ (∀ v : Fin u64Bound, ∃ r : RxStreamProgress, r.bytes = v)
    ∧ (∀ v : Fin u64Bound, ∃ r : TxStreamProgress, r.bytes = v)
    ∧ (∀ v : Fin u64Bound, ∃ r : EndpointDatagramReceived, r.len = v) :=
  ⟨fun a b c d e f g h i => ⟨⟨a, b, c, d, e, f, g, h, i⟩, rfl⟩,
   fun v => ⟨⟨v⟩, rfl⟩, fun v => ⟨⟨v⟩, rfl⟩, fun v => ⟨⟨v⟩, rfl⟩⟩

/-- C8: records are immutable once constructed — the artifact offers only
construction and field reads, and any sequence of reads performed after
construction, in any order and any number of times, returns exactly the
values supplied at construction. -/
theorem immutable_after_construction :
    (∀ a b c d e f g h i : Fin u64Bound, ∀ reads : List (Fin 9),
        (RecoveryMetrics.mk a b c d e f g h i).readAll reads
          = reads.map fun j =>
              List.get [a, b, c, d, e, f, g, h, i] ⟨j.val, j.isLt⟩)
    ∧ (∀ v : Fin u64Bound, ∀ n : Nat,
        List.replicate n (RxStreamProgress.mk v).bytes = List.replicate n v)
    ∧ (∀ v : Fin u64Bound, ∀ n : Nat,
        List.replicate n (TxStreamProgress.mk v).bytes = List.replicate n v)
    ∧ (∀ v : Fin u64Bound, ∀ n : Nat,
        List.replicate n (EndpointDatagramReceived.mk v).len
          = List.replicate n v) :=
  ⟨fun _ _ _ _ _ _ _ _ _ _ => rfl, fun _ _ => rfl, fun _ _ => rfl,
   fun _ _ => rfl⟩

/-- C9: every field of every constructed record is non-negative, for all
fields of all four record kinds. -/
theorem fields_nonnegative :
    (∀ r : RecoveryMetrics, ∀ i : Fin 9, 0 ≤ (r.readField i).val)
    ∧ (∀ r : RxStreamProgress, 0 ≤ r.bytes.val)
    ∧ (∀ r : TxStreamProgress, 0 ≤ r.bytes.val)
    ∧ (∀ r : EndpointDatagramReceived, 0 ≤ r.len.val) :=
  ⟨fun _ _ => Nat.zero_le _, fun _ => Nat.zero_le _, fun _ => Nat.zero_le _,
   fun _ => Nat.zero_le _⟩

/-- C10: construction and field access are deterministic — two records
constructed from identical tuples are equal, equal records yield equal
field reads, and every field read is fully determined by the construction
arguments alone. -/
theorem deterministic_construction_and_read :
    (∀ t u : Fin u64Bound × Fin u64Bound × Fin u64Bound × Fin u64Bound ×
        Fin u64Bound × Fin u64Bound × Fin u64Bound × Fin u64Bound ×
        Fin u64Bound,
        t = u → constructRecovery t = constructRecovery u)
    ∧ (∀ r s : RecoveryMetrics, r = s →
        ∀ i : Fin 9, r.readField i = s.readField i)
    ∧ (∀ v w : Fin u64Bound, v = w →
        RxStreamProgress.mk v = RxStreamProgress.mk w
        ∧ TxStreamProgress.mk v = TxStreamProgress.mk w
        ∧ EndpointDatagramReceived.mk v = EndpointDatagramReceived.mk w)
    ∧ (∀ t, (constructRecovery t).fieldList
        = [t.1, t.2.1, t.2.2.1, t.2.2.2.1, t.2.2.2.2.1, t.2.2.2.2.2.1,
           t.2.2.2.2.2.2.1, t.2.2.2.2.2.2.2.1, t.2.2.2.2.2.2.2.2]) :=
  ⟨fun _ _ h => congrArg constructRecovery h,
   fun _ _ h _ => h ▸ rfl,
   fun _ _ h => ⟨congrArg RxStreamProgress.mk h,
     congrArg TxStreamProgress.mk h, congrArg EndpointDatagramReceived.mk h⟩,
   fun _ => rfl⟩

/-- Witness for C10 at a concrete tuple and a concrete record. -/
theorem deterministic_construction_and_read_witness :
    constructRecovery (1, 2000, 2100, 2050, 50, 25000, 0, 65536, 1200)
      = constructRecovery (1, 2000, 2100, 2050, 50, 25000, 0, 65536, 1200)
    ∧ (RecoveryMetrics.mk 1 2000 2100 2050 50 25000 0 65536 1200).readField 0
      = (RecoveryMetrics.mk 1 2000 2100 2050 50 25000 0 65536 1200).readField 0 :=
  ⟨deterministic_construction_and_read.1
      (1, 2000, 2100, 2050, 50, 25000, 0, 65536, 1200)
      (1, 2000, 2100, 2050, 50, 25000, 0, 65536, 1200) rfl,
   deterministic_construction_and_read.2.1
      (RecoveryMetrics.mk 1 2000 2100 2050 50 25000 0 65536 1200)
      (RecoveryMetrics.mk 1 2000 2100 2050 50 25000 0 65536 1200) rfl 0⟩
